import Mathlib

/-
Verification of the popup-state controller (src/src/index.js).

The controller holds a single piece of state, `State = { anchorEl }`, plus a
module-level one-shot warning flag `eventOrAnchorElWarned`.  The handlers
`handleOpen` / `handleClose` / `handleToggle` / `handleSetOpen` transition
this state, and the binding functions `bindTrigger` / `bindToggle` /
`bindHover` / `bindPopover` / `bindMenu` / `bindPopper` are pure functions of
the injected-props record.

JavaScript runtime values relevant to the handlers are modelled by `JSVal`:
`null` / `undefined`, the falsy-capable primitives, function references,
element references, and event objects carrying a `target` property.
Property access `.target` throws a TypeError on `null` / `undefined`
(modelled by `Except.error ()`), yields the target on an event object, and
yields `undefined` on every other value (primitive autoboxing; plain
elements have no `target` property).
-/

namespace PopupStateLib

inductive JSVal where
  | null
  | undef
  | bool (b : Bool)
  | num (n : Int)
  | str (s : String)
  | fn (id : Nat)
  | elem (id : Nat)
  | event (target : JSVal)
deriving DecidableEq, Repr

/-- JavaScript truthiness (`Boolean(v)`); `NaN` is not modelled, every other
falsy value is. -/
def truthy : JSVal → Bool
  | JSVal.null => false
  | JSVal.undef => false
  | JSVal.bool b => b
  | JSVal.num n => decide (n ≠ 0)
  | JSVal.str s => decide (s ≠ "")
  | JSVal.fn _ => true
  | JSVal.elem _ => true
  | JSVal.event _ => true

/-- Whether a value is `null` or `undefined` (property access throws on these). -/
def nullish : JSVal → Bool
  | JSVal.null => true
  | JSVal.undef => true
  | _ => false

/-- JavaScript property read `v.target`: TypeError on nullish values, the
target on an event object, `undefined` otherwise. -/
def getTarget : JSVal → Except Unit JSVal
  | JSVal.null => Except.error ()
  | JSVal.undef => Except.error ()
  | JSVal.event t => Except.ok t
  | _ => Except.ok JSVal.undef

/-- The value of `eventOrAnchorEl && eventOrAnchorEl.target ? eventOrAnchorEl.target
: eventOrAnchorEl` for a non-throwing evaluation.  When `eventOrAnchorEl` is
falsy the `&&` short-circuits, so `.target` is only read on truthy values,
where it never throws. -/
def resolveAnchor : JSVal → JSVal
  | JSVal.event t => if truthy t then t else JSVal.event t
  | e => e

inductive Variant where
  | popover
  | popper
deriving DecidableEq, Repr

/-- The record handed to the render callback (`InjectedProps` in the source).
The four operation fields are opaque function references. -/
structure InjectedProps where
  «open» : JSVal
  close : JSVal
  toggle : JSVal
  setOpen : JSVal
  isOpen : Bool
  anchorEl : JSVal
  popupId : JSVal
  variant : Variant
deriving DecidableEq, Repr

/-- Output of `bindTrigger` / `bindToggle`; a `none` field models an absent
object key, `some v` a present key with value `v`. -/
structure TriggerProps where
  «aria-owns» : Option JSVal
  «aria-describedby» : Option JSVal
  «aria-haspopup» : Bool
  onClick : JSVal
deriving DecidableEq, Repr

/-- Output of `bindHover`. -/
structure HoverProps where
  «aria-owns» : Option JSVal
  «aria-describedby» : Option JSVal
  «aria-haspopup» : Bool
  onMouseEnter : JSVal
  onMouseLeave : JSVal
deriving DecidableEq, Repr

/-- Output of `bindPopover` / `bindMenu`. -/
structure PopoverProps where
  id : JSVal
  anchorEl : JSVal
  «open» : Bool
  onClose : JSVal
deriving DecidableEq, Repr

/-- Output of `bindPopper`. -/
structure PopperProps where
  id : JSVal
  anchorEl : JSVal
  «open» : Bool
deriving DecidableEq, Repr

/-- `bindTrigger`: the computed key `[variant === 'popover' ? 'aria-owns' :
'aria-describedby']` holds `isOpen ? popupId : null`. -/
def bindTrigger (p : InjectedProps) : TriggerProps :=
  { «aria-owns» :=
      if p.variant = Variant.popover then some (if p.isOpen then p.popupId else JSVal.null)
      else none
    «aria-describedby» :=
      if p.variant = Variant.popover then none
      else some (if p.isOpen then p.popupId else JSVal.null)
    «aria-haspopup» := true
    onClick := p.«open» }

/-- `bindToggle`: same ARIA fields as `bindTrigger`, `onClick` is `toggle`. -/
def bindToggle (p : InjectedProps) : TriggerProps :=
  { «aria-owns» :=
      if p.variant = Variant.popover then some (if p.isOpen then p.popupId else JSVal.null)
      else none
    «aria-describedby» :=
      if p.variant = Variant.popover then none
      else some (if p.isOpen then p.popupId else JSVal.null)
    «aria-haspopup» := true
    onClick := p.toggle }

/-- `bindHover`: same ARIA fields plus `onMouseEnter: open`, `onMouseLeave: close`. -/
def bindHover (p : InjectedProps) : HoverProps :=
  { «aria-owns» :=
      if p.variant = Variant.popover then some (if p.isOpen then p.popupId else JSVal.null)
      else none
    «aria-describedby» :=
      if p.variant = Variant.popover then none
      else some (if p.isOpen then p.popupId else JSVal.null)
    «aria-haspopup» := true
    onMouseEnter := p.«open»
    onMouseLeave := p.close }

/-- `bindPopover`: `{ id: popupId, anchorEl, open: isOpen, onClose: close }`. -/
def bindPopover (p : InjectedProps) : PopoverProps :=
  { id := p.popupId
    anchorEl := p.anchorEl
    «open» := p.isOpen
    onClose := p.close }

/-- `bindMenu` is defined as an alias of `bindPopover` in the source. -/
def bindMenu : InjectedProps → PopoverProps := bindPopover

/-- `bindPopper`: `{ id: popupId, anchorEl, open: isOpen }`. -/
def bindPopper (p : InjectedProps) : PopperProps :=
  { id := p.popupId
    anchorEl := p.anchorEl
    «open» := p.isOpen }

/-- The component state: `type State = { anchorEl: ?HTMLElement }`.  This is
the only per-instance state the controller holds. -/
structure State where
  anchorEl : JSVal
deriving DecidableEq, Repr

/-- Initial state: `state = { anchorEl: null }`. -/
def initState : State := ⟨JSVal.null⟩

/-- Result of a handler invocation that did not throw: the new component
state, the new value of the module-level `eventOrAnchorElWarned` flag, and
whether `console.error` was invoked during the call. -/
structure OpenResult where
  state : State
  warned : Bool
  logged : Bool
deriving DecidableEq, Repr

/-- `handleOpen`, evaluated under JavaScript semantics.  The guard
`!eventOrAnchorElWarned && !eventOrAnchorEl && !eventOrAnchorEl.target`
short-circuits left to right; when the first two conjuncts hold, reading
`.target` throws a TypeError on nullish input (`Except.error ()`), and
otherwise yields `undefined` which is falsy, entering the warning branch.
When the guard is passed, `setState` stores
`eventOrAnchorEl && eventOrAnchorEl.target ? eventOrAnchorEl.target : eventOrAnchorEl`. -/
def handleOpen (eventOrAnchorEl : JSVal) (_s : State) (warned : Bool) :
    Except Unit OpenResult :=
  if !warned && !truthy eventOrAnchorEl then
    match getTarget eventOrAnchorEl with
    | Except.error _ => Except.error ()
    | Except.ok t =>
      if !truthy t then
        Except.ok ⟨⟨resolveAnchor eventOrAnchorEl⟩, true, true⟩
      else
        Except.ok ⟨⟨resolveAnchor eventOrAnchorEl⟩, warned, false⟩
  else
    Except.ok ⟨⟨resolveAnchor eventOrAnchorEl⟩, warned, false⟩

/-- `handleClose = () => this.setState({ anchorEl: null })`. -/
def handleClose (_s : State) : State := ⟨JSVal.null⟩

/-- `handleToggle`: close when `this.state.anchorEl` is truthy, otherwise
delegate to `handleOpen`. -/
def handleToggle (eventOrAnchorEl : JSVal) (s : State) (warned : Bool) :
    Except Unit OpenResult :=
  if truthy s.anchorEl then Except.ok ⟨handleClose s, warned, false⟩
  else handleOpen eventOrAnchorEl s warned

/-- `handleSetOpen`: delegate to `handleOpen` when the flag is truthy,
otherwise to `handleClose`. -/
def handleSetOpen (openFlag : JSVal) (eventOrAnchorEl : JSVal) (s : State)
    (warned : Bool) : Except Unit OpenResult :=
  if truthy openFlag then handleOpen eventOrAnchorEl s warned
  else Except.ok ⟨handleClose s, warned, false⟩

/-- A controller operation, as invocable through the injected props. -/
inductive Op where
  | openOp (e : JSVal)
  | closeOp
  | toggleOp (e : JSVal)
  | setOpenOp (flag : JSVal) (e : JSVal)
deriving DecidableEq, Repr

/-- One operation applied to the component state and the module-level flag. -/
def step : Op → State → Bool → Except Unit OpenResult
  | Op.openOp e, s, w => handleOpen e s w
  | Op.closeOp, s, w => Except.ok ⟨handleClose s, w, false⟩
  | Op.toggleOp e, s, w => handleToggle e s w
  | Op.setOpenOp f e, s, w => handleSetOpen f e s w

/-- Run a sequence of operations.  A call that throws propagates its
exception to the event loop without reaching `setState`, so it leaves both
the component state and the flag unchanged. -/
def runOps : List Op → State → Bool → State × Bool
  | [], s, w => (s, w)
  | op :: ops, s, w =>
    match step op s w with
    | Except.error _ => runOps ops s w
    | Except.ok r => runOps ops r.state r.warned

/-- `render`: derives `isOpen = Boolean(anchorEl)` and hands the injected
props to the children callback.  The four handler references are passed
through as opaque function values. -/
def PopupState.render (s : State) (popupId : JSVal) (variant : Variant) :
    InjectedProps :=
  ⟨JSVal.fn 0, JSVal.fn 1, JSVal.fn 2, JSVal.fn 3,
    truthy s.anchorEl, s.anchorEl, popupId, variant⟩

/-- Helper: whenever `handleOpen` returns normally, the stored anchor is the
resolution of its argument, whatever the warning path did. -/
theorem handleOpen_ok_anchor (e : JSVal) (s : State) (w : Bool) (r : OpenResult)
    (h : handleOpen e s w = Except.ok r) : r.state.anchorEl = resolveAnchor e := by
  unfold handleOpen at h
  split at h
  · split at h
    · exact Except.noConfusion h
    · split at h <;> (injection h with h; subst h; rfl)
  · injection h with h; subst h; rfl

/-- Helper: `handleOpen` throws exactly when the one-shot flag is unset and
the argument is nullish (the guard then reads `.target` on it). -/
theorem handleOpen_error_iff (e : JSVal) (s : State) (w : Bool) :
    handleOpen e s w = Except.error () ↔ (w = false ∧ nullish e = true) := by
  cases e <;> cases w <;>
    simp [handleOpen, nullish, truthy, getTarget] <;>
    split <;> simp_all

/-- C1: after every sequence of controller operations from the initial state,
the `isOpen` value derived in `render` is true exactly when the stored
`anchorEl` is truthy, whatever `popupId` and `variant` are — no other state
determines it. -/
theorem isOpen_iff_anchor_present (ops : List Op) (pid : JSVal) (v : Variant) :
    (PopupState.render (runOps ops initState false).1 pid v).isOpen
      = truthy (runOps ops initState false).1.anchorEl := rfl

/-- C2: evaluating `handleOpen` at the failing inputs.  With the warning flag
unset, a `null` or `undefined` anchor source makes the guard itself throw a
TypeError — no diagnostic is emitted and no state update happens — and a
truthy target-less source (a plain element) is never diagnosed at all. -/
theorem handleOpen_invalid_call_eval :
    handleOpen JSVal.null initState false = Except.error ()
    ∧ handleOpen JSVal.undef initState false = Except.error ()
    ∧ handleOpen (JSVal.elem 0) initState false
        = Except.ok ⟨⟨JSVal.elem 0⟩, false, false⟩ := ⟨rfl, rfl, rfl⟩

/-- C3 counterexample: an event object whose `target` property is present but
falsy (here `{target: null}`) does expose a `target` property, yet `open`
stores the event object itself, not that target. -/
theorem open_event_falsy_target_cex :
    handleOpen (JSVal.event JSVal.null) initState false
      = Except.ok ⟨⟨JSVal.event JSVal.null⟩, false, false⟩
    ∧ JSVal.event JSVal.null ≠ JSVal.null := ⟨rfl, by decide⟩

/-- C3 amended: whenever `open` returns normally, the stored anchor is the
target when the anchor source is an event with a truthy `target`, and the
anchor source itself in every other case (including events whose `target`
is falsy). -/
theorem handleOpen_anchor_resolution (e : JSVal) (s : State) (w : Bool)
    (r : OpenResult) (h : handleOpen e s w = Except.ok r) :
    (∀ t, e = JSVal.event t →
      (truthy t = true → r.state.anchorEl = t)
      ∧ (truthy t = false → r.state.anchorEl = e))
    ∧ ((∀ t, e ≠ JSVal.event t) → r.state.anchorEl = e) := by
  have ha := handleOpen_ok_anchor e s w r h
  constructor
  · intro t het
    subst het
    refine ⟨fun ht => ?_, fun ht => ?_⟩ <;> rw [ha] <;> simp [resolveAnchor, ht]
  · intro hne
    rw [ha]
    cases e <;> first
      | rfl
      | exact absurd rfl (hne _)

/-- C3 witness: opening with `{target: element 5}` stores element 5. -/
theorem handleOpen_anchor_resolution_witness :
    handleOpen (JSVal.event (JSVal.elem 5)) initState false
      = Except.ok ⟨⟨JSVal.elem 5⟩, false, false⟩
    ∧ (⟨⟨JSVal.elem 5⟩, false, false⟩ : OpenResult).state.anchorEl
        = JSVal.elem 5 := by
  refine ⟨rfl, ?_⟩
  exact ((handleOpen_anchor_resolution (JSVal.event (JSVal.elem 5)) initState
    false ⟨⟨JSVal.elem 5⟩, false, false⟩ rfl).1 (JSVal.elem 5) rfl).1
    (by decide)

/-- C4 counterexample: `false` is a falsy anchor source, yet with the flag
unset `open(false)` does not throw — property access on a non-nullish
primitive yields `undefined` — so the diagnostic branch runs and the
one-shot flag is set. -/
theorem open_falsy_no_throw_cex :
    truthy (JSVal.bool false) = false
    ∧ handleOpen (JSVal.bool false) initState false
        = Except.ok ⟨⟨JSVal.bool false⟩, true, true⟩ := ⟨rfl, rfl⟩

/-- C4 amended: with the warning flag unset, `open` throws a TypeError before
any state update exactly on nullish (null/undefined) anchor sources; every
other falsy source instead reaches the diagnostic branch, logs, and sets the
flag. -/
theorem handleOpen_unwarned_falsy_behavior (e : JSVal) (s : State) :
    (nullish e = true → handleOpen e s false = Except.error ())
    ∧ (nullish e = false → truthy e = false →
        handleOpen e s false = Except.ok ⟨⟨e⟩, true, true⟩) := by
  constructor
  · intro hn
    exact (handleOpen_error_iff e s false).2 ⟨rfl, hn⟩
  · intro hn ht
    cases e <;> simp_all [handleOpen, nullish, truthy, getTarget, resolveAnchor]

/-- C4 witness: `open(null)` throws, `open(false)` logs and sets the flag. -/
theorem handleOpen_unwarned_falsy_behavior_witness :
    handleOpen JSVal.null initState false = Except.error ()
    ∧ handleOpen (JSVal.bool false) initState false
        = Except.ok ⟨⟨JSVal.bool false⟩, true, true⟩ := by
  constructor
  · exact (handleOpen_unwarned_falsy_behavior JSVal.null initState).1 (by decide)
  · exact (handleOpen_unwarned_falsy_behavior (JSVal.bool false) initState).2
      (by decide) (by decide)

/-- C5: `toggle` with a truthy stored anchor behaves exactly as `close`
(argument ignored, no log, no throw), and with a non-truthy stored anchor it
is exactly `open` on the same argument. -/
theorem handleToggle_spec (e : JSVal) (s : State) (w : Bool) :
    (truthy s.anchorEl = true →
      handleToggle e s w = Except.ok ⟨handleClose s, w, false⟩)
    ∧ (truthy s.anchorEl = false → handleToggle e s w = handleOpen e s w) := by
  constructor <;> intro h <;> simp [handleToggle, h]

/-- C5 witness: toggling while open closes; toggling while closed opens. -/
theorem handleToggle_spec_witness :
    handleToggle (JSVal.elem 2) ⟨JSVal.elem 1⟩ false
      = Except.ok ⟨handleClose ⟨JSVal.elem 1⟩, false, false⟩
    ∧ handleToggle (JSVal.elem 2) initState false
      = handleOpen (JSVal.elem 2) initState false := by
  constructor
  · exact (handleToggle_spec (JSVal.elem 2) ⟨JSVal.elem 1⟩ false).1 (by decide)
  · exact (handleToggle_spec (JSVal.elem 2) initState false).2 (by decide)

/-- C6: `setOpen` with a truthy flag is exactly `open` on the anchor source,
and with a falsy flag it is exactly `close` — the source is ignored and the
resulting anchor is null (closed). -/
theorem handleSetOpen_spec (f e : JSVal) (s : State) (w : Bool) :
    (truthy f = true → handleSetOpen f e s w = handleOpen e s w)
    ∧ (truthy f = false →
        handleSetOpen f e s w = Except.ok ⟨handleClose s, w, false⟩
        ∧ (handleClose s).anchorEl = JSVal.null) := by
  constructor <;> intro h <;> simp [handleSetOpen, h, handleClose]

/-- C6 witness: `setOpen(true, e)` opens and `setOpen(false, e)` closes. -/
theorem handleSetOpen_spec_witness :
    handleSetOpen (JSVal.bool true) (JSVal.elem 2) initState false
      = handleOpen (JSVal.elem 2) initState false
    ∧ handleSetOpen (JSVal.bool false) (JSVal.elem 2) ⟨JSVal.elem 1⟩ false
        = Except.ok ⟨handleClose ⟨JSVal.elem 1⟩, false, false⟩ := by
  constructor
  · exact (handleSetOpen_spec (JSVal.bool true) (JSVal.elem 2) initState
      false).1 (by decide)
  · exact ((handleSetOpen_spec (JSVal.bool false) (JSVal.elem 2)
      ⟨JSVal.elem 1⟩ false).2 (by decide)).1

/-- C7 counterexample: with the warning flag unset, `open(element 1)` then
`open(null)` throws a TypeError on the second call — opening while already
open can raise an error, and the anchor is not replaced by the resolution of
the second argument. -/
theorem open_open_error_cex :
    handleOpen (JSVal.elem 1) initState false
      = Except.ok ⟨⟨JSVal.elem 1⟩, false, false⟩
    ∧ handleOpen JSVal.null ⟨JSVal.elem 1⟩ false = Except.error () := ⟨rfl, rfl⟩

/-- C7 amended: after a successful `open(a)`, an `open(b)` whose argument is
non-nullish — or performed once the one-shot flag is set — raises no error,
and any normal return stores exactly the anchor resolved from `b`: last
write wins, unconditionally replacing the old anchor. -/
theorem open_open_last_write (s : State) (w : Bool) (a b : JSVal)
    (r₁ : OpenResult) (_h₁ : handleOpen a s w = Except.ok r₁)
    (hb : nullish b = false ∨ r₁.warned = true) :
    handleOpen b r₁.state r₁.warned ≠ Except.error ()
    ∧ ∀ r₂, handleOpen b r₁.state r₁.warned = Except.ok r₂ →
        r₂.state.anchorEl = resolveAnchor b := by
  constructor
  · intro hc
    have hx := (handleOpen_error_iff b r₁.state r₁.warned).1 hc
    cases hb with
    | inl h => rw [h] at hx; exact Bool.noConfusion hx.2
    | inr h => rw [h] at hx; exact Bool.noConfusion hx.1
  · intro r₂ h₂
    exact handleOpen_ok_anchor b r₁.state r₁.warned r₂ h₂

/-- C7 witness: `open(element 1)` then `open(element 2)` succeeds and leaves
element 2 as the anchor. -/
theorem open_open_last_write_witness :
    handleOpen (JSVal.elem 2) ⟨JSVal.elem 1⟩ false ≠ Except.error ()
    ∧ (⟨⟨JSVal.elem 2⟩, false, false⟩ : OpenResult).state.anchorEl
        = resolveAnchor (JSVal.elem 2) := by
  have h := open_open_last_write initState false (JSVal.elem 1) (JSVal.elem 2)
    ⟨⟨JSVal.elem 1⟩, false, false⟩ rfl (Or.inl rfl)
  exact ⟨h.1, h.2 ⟨⟨JSVal.elem 2⟩, false, false⟩ rfl⟩

/-- C8: `bindTrigger`, `bindToggle` and `bindHover` always set
`aria-haspopup` to true; their output carries exactly one of the keys
`aria-owns` / `aria-describedby` (never both, never neither): `aria-owns`
for the popover variant and `aria-describedby` for the popper variant, its
value being `popupId` when open and the null absent-marker when closed, the
key itself always present. -/
theorem bind_trigger_toggle_hover_aria (p : InjectedProps) :
    ((bindTrigger p).«aria-haspopup» = true
      ∧ (bindToggle p).«aria-haspopup» = true
      ∧ (bindHover p).«aria-haspopup» = true)
    ∧ ((bindTrigger p).«aria-owns».isSome
          ≠ (bindTrigger p).«aria-describedby».isSome
      ∧ (bindToggle p).«aria-owns».isSome
          ≠ (bindToggle p).«aria-describedby».isSome
      ∧ (bindHover p).«aria-owns».isSome
          ≠ (bindHover p).«aria-describedby».isSome)
    ∧ (p.variant = Variant.popover →
        (bindTrigger p).«aria-owns»
            = some (if p.isOpen then p.popupId else JSVal.null)
        ∧ (bindTrigger p).«aria-describedby» = none
        ∧ (bindToggle p).«aria-owns»
            = some (if p.isOpen then p.popupId else JSVal.null)
        ∧ (bindToggle p).«aria-describedby» = none
        ∧ (bindHover p).«aria-owns»
            = some (if p.isOpen then p.popupId else JSVal.null)
        ∧ (bindHover p).«aria-describedby» = none)
    ∧ (p.variant = Variant.popper →
        (bindTrigger p).«aria-describedby»
            = some (if p.isOpen then p.popupId else JSVal.null)
        ∧ (bindTrigger p).«aria-owns» = none
        ∧ (bindToggle p).«aria-describedby»
            = some (if p.isOpen then p.popupId else JSVal.null)
        ∧ (bindToggle p).«aria-owns» = none
        ∧ (bindHover p).«aria-describedby»
            = some (if p.isOpen then p.popupId else JSVal.null)
        ∧ (bindHover p).«aria-owns» = none) := by
  cases hv : p.variant <;>
    simp [bindTrigger, bindToggle, bindHover, hv]

/-- C8 witness: a concrete open popover-variant record gets `aria-owns`
bound to its popup id and no `aria-describedby` key. -/
theorem bind_trigger_toggle_hover_aria_witness :
    (bindTrigger ⟨JSVal.fn 0, JSVal.fn 1, JSVal.fn 2, JSVal.fn 3, true,
        JSVal.elem 1, JSVal.str "p", Variant.popover⟩).«aria-owns»
      = some (JSVal.str "p")
    ∧ (bindTrigger ⟨JSVal.fn 0, JSVal.fn 1, JSVal.fn 2, JSVal.fn 3, true,
        JSVal.elem 1, JSVal.str "p", Variant.popover⟩).«aria-describedby»
      = none := by
  have h := (bind_trigger_toggle_hover_aria ⟨JSVal.fn 0, JSVal.fn 1,
    JSVal.fn 2, JSVal.fn 3, true, JSVal.elem 1, JSVal.str "p",
    Variant.popover⟩).2.2.1 rfl
  exact ⟨h.1, h.2.1⟩

/-- C9: `bindMenu` is pointwise equal to `bindPopover`, and the common
output is exactly `{ id: popupId, anchorEl, open: isOpen, onClose: close }`. -/
theorem bindMenu_alias_bindPopover (p : InjectedProps) :
    bindMenu p = bindPopover p
    ∧ bindPopover p = ⟨p.popupId, p.anchorEl, p.isOpen, p.close⟩ :=
  ⟨rfl, rfl⟩

/-- C10: from every state and flag, `close(); close()` ends in the same
state-and-flag pair as a single `close()`, that state has a null anchor, and
closing while already closed changes nothing. -/
theorem close_close_idempotent (s : State) (w : Bool) :
    runOps [Op.closeOp, Op.closeOp] s w = runOps [Op.closeOp] s w
    ∧ (runOps [Op.closeOp] s w).1.anchorEl = JSVal.null
    ∧ (s.anchorEl = JSVal.null → runOps [Op.closeOp] s w = (s, w)) := by
  refine ⟨rfl, rfl, fun h => ?_⟩
  cases s
  simp_all [runOps, step, handleClose]

/-- C10 witness: closing the freshly initialised (already closed) controller
leaves the state and flag unchanged. -/
theorem close_close_idempotent_witness :
    runOps [Op.closeOp] initState false = (initState, false) :=
  (close_close_idempotent initState false).2.2 rfl

end PopupStateLib
